import Mathlib

/-!
Shallow embedding of `nucypher/blockchain/eth/interfaces.py`
(`BlockchainInterface` and `BlockchainDeployerInterface`) and proofs about
its contract-resolution, provider-management, factory-cache, deployment and
signature-verification behaviour.

Addresses, ABIs, bytecode and transaction hashes are modelled as opaque
`Nat` tokens; contract names are `String`s.  Python exceptions become an
explicit error type `InterfaceErr` whose constructors correspond one-to-one
to the distinct `raise` sites (distinguished in the source by their message
text and, for some, by exception class).  Stateful methods are embedded as
functions returning the new state paired with an optional error (a raised
exception leaves the object's state unchanged), or as `Except` values when
the method does not mutate state.
-/

deriving instance DecidableEq for Except

namespace NucypherInterfaces

/-- An ethereum address (opaque token). -/
abbrev Address := Nat

/-- A contract ABI (opaque token; the embedding never inspects it). -/
abbrev ABI := Nat

/-- Compiled contract bytecode (opaque token). -/
abbrev Bytecode := Nat

/-- A transaction hash (opaque token). -/
abbrev TxHash := Nat

/-- Modelled from the spec: a registry record `{name, address, abi}` as
persisted by the external registry collaborator (`EthereumContractRegistry`,
whose source is not part of this repository slice).  The registry exposes it
as the tuple `(name, address, abi)` unpacked in `get_contract_by_name`. -/
structure RegRecord where
  name : String
  addr : Address
  abi : ABI
deriving DecidableEq, Repr

/-- The registry state: an ordered sequence of records
(spec §6: "ordered sequence of `{name, address, abi}`"). -/
abbrev Registry := List RegRecord

/-- Modelled from the spec: `registry.search(contract_name=name)` of the
external registry collaborator — the subsequence of records whose name
equals `name`, in registry order ("queryable by `name`"). -/
def registrySearchByName (registry : Registry) (name : String) : List RegRecord :=
  registry.filter (fun r => r.name = name)

/-- Modelled from the spec: `registry.enroll(name, address, abi)` of the
external registry collaborator — an append-only operation ("mutable only
through an `enroll(name, address, abi)` append operation"). -/
def registryEnroll (registry : Registry) (name : String) (addr : Address)
    (abi : ABI) : Registry :=
  registry ++ [⟨name, addr, abi⟩]

/-- The distinct failure causes of the embedded methods.  Each constructor
corresponds to one `raise` site of the source (`InterfaceError`,
`UnknownContract` or `RuntimeError`, distinguished by message). -/
inductive InterfaceErr where
  /-- Raised as `InterfaceError("No URI or provider instances supplied.")` -/
  | noProviderArgs
  /-- Raised as `InterfaceError("... is an ambiguous or unsupported blockchain provider URI")`
  (scheme `tester` with an unknown netloc). -/
  | ambiguousProviderUri
  /-- Raised as `InterfaceError("'...' is not a blockchain provider protocol")` — the
  `UnsupportedProviderError` of the spec. -/
  | unsupportedProviderProtocol (scheme : String)
  /-- Raised as `UnknownContract("... is not a locally compiled contract.")` -/
  | unknownContract (name : String)
  /-- Raised as `InterfaceError("The local contract compiler cache is empty because no compilation was performed.")` -/
  | cacheEmpty
  /-- Raised as `InterfaceError("No such contract records with name ...")` — the
  `NotFoundError` of the spec. -/
  | noSuchContractRecords (name : String)
  /-- Raised as `InterfaceError("No dispatcher targets known contract records for ...")` —
  the `NoDispatcherTargetError` of the spec. -/
  | noDispatcherTarget (name : String)
  /-- Raised as `InterfaceError("There is more than one dispatcher targeting ...")` —
  the `AmbiguousDispatcherError` of the spec. -/
  | ambiguousDispatcher (name : String)
  /-- Raised as `InterfaceError("Multiple records returned from the registry for non-upgradeable contract ...")` —
  the `AmbiguousRecordError` of the spec. -/
  | multipleRecords (name : String)
  /-- Raised as `InterfaceError("No deployer address is configured.")` -/
  | noDeployerConfigured
  /-- Raised as `RuntimeError("... already has a deployer address set.")` — the
  `DeployerAlreadySetError` of the spec. -/
  | deployerAlreadySet
  /-- A failure of the external web3 transaction submission
  (`constructor(...).transact(...)` raising). -/
  | transactionFailed
  /-- Raised when `waitForTransactionReceipt` times out without a receipt. -/
  | receiptTimeout
deriving DecidableEq, Repr

/-- The resolved contract binding returned by `get_contract_by_name`: the
address and ABI the returned web3 contract object is built from
(`self.w3.eth.contract(abi=selected_contract_abi, address=selected_contract_address, ...)`). -/
structure ContractBinding where
  address : Address
  abi : ABI
deriving DecidableEq, Repr

/-- The live chain state visible to upgradeable resolution: for a dispatcher
contract at a given address, the address returned by its `target()` accessor
(`dispatcher_contract.functions.target().call()` — a live network read). -/
abbrev ChainTargets := Address → Address

/-- The candidate list built by the dispatcher scan of
`get_contract_by_name` with `upgradeable=True`: for each registry record
named `Dispatcher` (outer loop), and each registry record named `name`
whose address equals that dispatcher's live `target()` address (inner
loop), the pair `(dispatcher_addr, target_abi)` is appended to
`matching_pairs`. -/
def matchingPairs (chain : ChainTargets) (registry : Registry)
    (name : String) : List (Address × ABI) :=
  (registrySearchByName registry "Dispatcher").flatMap (fun d =>
    ((registrySearchByName registry name).filter
        (fun t => t.addr = chain d.addr)).map
      (fun t => (d.addr, t.abi)))

/-- Embeds `BlockchainInterface.get_contract_by_name(name, upgradeable)`.

The source first searches the registry for records named `name` and raises
`"No such contract records with name ..."` when none exist.  Then:
with `upgradeable=True` it scans all `Dispatcher` records, reads each
dispatcher's live `target()` address from the chain and collects
`matching_pairs` (see `matchingPairs`); zero pairs raises
`"No dispatcher targets known contract records"`, more than one raises
`"There is more than one dispatcher targeting ..."`, and exactly one pair
yields a contract bound at the dispatcher's address with the target's ABI.
With `upgradeable=False`, a record count other than one raises
`"Multiple records returned from the registry ..."`, and the single record
yields a contract at its address with its ABI. -/
def get_contract_by_name (chain : ChainTargets) (registry : Registry)
    (name : String) (upgradeable : Bool) : Except InterfaceErr ContractBinding :=
  let target_contract_records := registrySearchByName registry name
  if target_contract_records.isEmpty then
    .error (.noSuchContractRecords name)
  else if upgradeable then
    match matchingPairs chain registry name with
    | [] => .error (.noDispatcherTarget name)
    | [(selected_contract_address, selected_contract_abi)] =>
        .ok ⟨selected_contract_address, selected_contract_abi⟩
    | _ => .error (.ambiguousDispatcher name)
  else
    match target_contract_records with
    | [r] => .ok ⟨r.addr, r.abi⟩
    | _ => .error (.multipleRecords name)

/-! ## Provider management (`add_provider`) -/

/-- The `urlparse(provider_uri)` breakdown used by `add_provider`: scheme,
network location and path components of the endpoint URI. -/
structure UriBreakdown where
  scheme : String
  netloc : String
  path : String
deriving DecidableEq, Repr

/-- The web3 provider flavours `add_provider` can build or receive
(`EthereumTesterProvider`, `IPCProvider`, `WebsocketProvider`,
`HTTPProvider`).  The tester variant records the fixed-gas-limit PyEVM
backend setup; the remote variants record their construction arguments. -/
inductive Provider where
  | ethereumTester
  | ipcProvider (ipc_path : String) (timeout : Option Nat)
  | websocketProvider (endpoint_uri : UriBreakdown)
  | httpProvider (endpoint_uri : UriBreakdown)
deriving DecidableEq, Repr

/-- The `self.__providers` field: `none` models the
`constants.NO_BLOCKCHAIN_CONNECTION` sentinel (no list created yet),
`some ps` the provider list. -/
abbrev ProvidersField := Option (List Provider)

/-- The `# lazy` tail of `add_provider`: create the list if the field still
holds the `NO_BLOCKCHAIN_CONNECTION` sentinel, then append the provider. -/
def lazyAppendProvider (st : ProvidersField) (p : Provider) :
    ProvidersField × Option InterfaceErr :=
  (some ((st.getD []) ++ [p]), none)

/-- Embeds `BlockchainInterface.add_provider(provider=..., provider_uri=..., timeout=...)`.

Returns the new `__providers` field paired with the raised error, if any (a
raise leaves the field unchanged).  Faithful to the source's control flow:
the error when both arguments are absent; when a URI is given and no
provider instance, the scheme dispatch (`tester`/`ipc`/`ws`/`http`/`https`,
anything else raising `"... is not a blockchain provider protocol"`)
followed by the lazy append; and — as in the source — no append at all on
any path where a provider instance was passed directly, because the append
statement sits inside the `if provider_uri and not provider:` branch. -/
def add_provider (st : ProvidersField) (provider : Option Provider)
    (provider_uri : Option UriBreakdown) (timeout : Option Nat) :
    ProvidersField × Option InterfaceErr :=
  if provider_uri.isNone ∧ provider.isNone then
    (st, some .noProviderArgs)
  else
    match provider_uri, provider with
    | some uri_breakdown, none =>
        if uri_breakdown.scheme = "tester" then
          if uri_breakdown.netloc = "pyevm" then
            lazyAppendProvider st .ethereumTester
          else if uri_breakdown.netloc = "geth" then
            lazyAppendProvider st (.ipcProvider "/tmp/geth.ipc" timeout)
          else
            (st, some .ambiguousProviderUri)
        else if uri_breakdown.scheme = "ipc" then
          lazyAppendProvider st (.ipcProvider uri_breakdown.path timeout)
        else if uri_breakdown.scheme = "ws" then
          lazyAppendProvider st (.websocketProvider uri_breakdown)
        else if uri_breakdown.scheme = "http" ∨ uri_breakdown.scheme = "https" then
          lazyAppendProvider st (.httpProvider uri_breakdown)
        else
          (st, some (.unsupportedProviderProtocol uri_breakdown.scheme))
    | _, _ => (st, none)

/-! ## Contract factory cache (`get_contract_factory`) -/

/-- A compiled contract artifact as stored in the raw contract cache:
`{abi, bin}` from the solidity compiler. -/
structure ContractArtifact where
  abi : ABI
  bin : Bytecode
deriving DecidableEq, Repr

/-- The `self.__raw_contract_cache` field: `none` models the
`constants.NO_COMPILATION_PERFORMED` sentinel, `some c` a populated mapping
from contract name to compiled artifact. -/
abbrev RawContractCache := Option (List (String × ContractArtifact))

/-- Embeds `BlockchainInterface.get_contract_factory(contract_name)`.

Indexing the cache with a missing key (`KeyError`) raises
`UnknownContract`; indexing the `NO_COMPILATION_PERFORMED` sentinel
(`TypeError`) raises the cache-empty `InterfaceError`; a hit returns the
web3 contract factory built from the artifact's abi and bytecode. -/
def get_contract_factory (cache : RawContractCache) (contract_name : String) :
    Except InterfaceErr ContractArtifact :=
  match cache with
  | none => .error .cacheEmpty
  | some c =>
      match c.lookup contract_name with
      | none => .error (.unknownContract contract_name)
      | some interface => .ok interface

/-! ## Deployer identity and `deploy_contract` -/

/-- The `self.__deployer_address` field of `BlockchainDeployerInterface`:
`none` models the `constants.NO_DEPLOYER_CONFIGURED` sentinel. -/
abbrev DeployerAddressField := Option Address

/-- The `deployer_address` property setter: raises
`RuntimeError("... already has a deployer address set.")` when the field is
not the `NO_DEPLOYER_CONFIGURED` sentinel (leaving it unchanged), and
assigns the checksum address otherwise.  Returns the new field value paired
with the raised error, if any. -/
def setDeployerAddress (current : DeployerAddressField)
    (checksum_address : Address) : DeployerAddressField × Option InterfaceErr :=
  match current with
  | some _ => (current, some .deployerAlreadySet)
  | none => (some checksum_address, none)

/-- The external network behaviour `deploy_contract` depends on: the
outcome of submitting the constructor transaction (`transact`, `none` when
submission raises) and of blocking for its receipt
(`waitForTransactionReceipt`, `none` when the wait times out; a receipt
carries the deployed `contractAddress`). -/
structure DeployNetwork where
  transact : Option TxHash
  receipt : TxHash → Option Address

/-- Embeds `BlockchainDeployerInterface.deploy_contract(contract_name, ...)`.

Returns the new registry state paired with the outcome.  Steps, in source
order, each aborting the rest on failure with the registry untouched:
deployer-identity check (`"No deployer address is configured."`), factory
lookup (`get_contract_factory`), transaction submission, blocking receipt
wait.  Only after a receipt is obtained is the contract instantiated at the
receipt's `contractAddress` and enrolled in the registry; the contract
binding and transaction hash are returned. -/
def deploy_contract (deployer : DeployerAddressField) (cache : RawContractCache)
    (registry : Registry) (net : DeployNetwork) (contract_name : String) :
    Registry × Except InterfaceErr (ContractBinding × TxHash) :=
  match deployer with
  | none => (registry, .error .noDeployerConfigured)
  | some _ =>
      match get_contract_factory cache contract_name with
      | .error e => (registry, .error e)
      | .ok contract_factory =>
          match net.transact with
          | none => (registry, .error .transactionFailed)
          | some txhash =>
              match net.receipt txhash with
              | none => (registry, .error .receiptTimeout)
              | some address =>
                  (registryEnroll registry contract_name address
                      contract_factory.abi,
                   .ok (⟨address, contract_factory.abi⟩, txhash))

/-! ## Signature verification (`call_backend_verify`) -/

/-- A signature (opaque token). -/
abbrev SignatureValue := Nat

/-- A public key (opaque token). -/
abbrev PublicKeyValue := Nat

/-- A message hash (opaque token). -/
abbrev MsgHash := Nat

/-- Modelled from the spec: the elliptic-curve signature primitives of the
external `eth_keys` collaborator ("signature primitives (elliptic-curve
sign/verify/recover)", specified only at their interface boundary):
`Signature.verify_msg_hash(msg_hash, pubkey)` and
`Signature.recover_public_key_from_msg_hash(msg_hash)`. -/
structure SignatureBackend where
  verify_msg_hash : SignatureValue → MsgHash → PublicKeyValue → Bool
  recover_public_key_from_msg_hash : SignatureValue → MsgHash → PublicKeyValue

/-- Embeds `BlockchainInterface.call_backend_verify(pubkey, signature, msg_hash)`:
`is_valid_sig and (sig_pubkey == pubkey)` where `is_valid_sig` checks the
signature against the hash and supplied key and `sig_pubkey` is the key
recovered from the signature over the hash. -/
def call_backend_verify (backend : SignatureBackend) (pubkey : PublicKeyValue)
    (signature : SignatureValue) (msg_hash : MsgHash) : Bool :=
  let is_valid_sig := backend.verify_msg_hash signature msg_hash pubkey
  let sig_pubkey := backend.recover_public_key_from_msg_hash signature msg_hash
  is_valid_sig && (sig_pubkey = pubkey)

/-! ## Helper lemmas -/

/-- With at least one registry record named `name`, the value of
`get_contract_by_name` with `upgradeable=True` is decided by the shape of
the `matchingPairs` candidate list. -/
theorem get_contract_by_name_upgradeable_eq (chain : ChainTargets)
    (registry : Registry) (name : String)
    (hne : registrySearchByName registry name ≠ []) :
    get_contract_by_name chain registry name true =
      match matchingPairs chain registry name with
      | [] => .error (.noDispatcherTarget name)
      | [(d, a)] => .ok ⟨d, a⟩
      | _ => .error (.ambiguousDispatcher name) := by
  obtain ⟨a, l, h⟩ := List.exists_cons_of_ne_nil hne
  simp [get_contract_by_name, h]

/-- With at least one record named `name` and at least two candidate pairs,
upgradeable resolution raises the more-than-one-dispatcher error. -/
theorem get_contract_by_name_upgradeable_of_two_le (chain : ChainTargets)
    (registry : Registry) (name : String)
    (hne : registrySearchByName registry name ≠ [])
    (hp : 2 ≤ (matchingPairs chain registry name).length) :
    get_contract_by_name chain registry name true
      = .error (.ambiguousDispatcher name) := by
  rw [get_contract_by_name_upgradeable_eq chain registry name hne]
  match h : matchingPairs chain registry name with
  | [] => rw [h] at hp; simp at hp
  | [x] => rw [h] at hp; simp at hp
  | p :: q :: t => rfl

/-! ## Claim theorems -/

/-- **C2** (confirmed).  For every registry state and contract name,
resolving with `upgradeable=false` returns the address and ABI of the unique
registry record matching `name` when exactly one such record exists; it
fails with the not-found error when zero records match and with the
ambiguous-record error when more than one record matches, never silently
picking one of several records. -/
theorem nonupgradeable_resolution_unique (chain : ChainTargets)
    (registry : Registry) (name : String) :
    (∀ r, registrySearchByName registry name = [r] →
      get_contract_by_name chain registry name false = .ok ⟨r.addr, r.abi⟩) ∧
    (registrySearchByName registry name = [] →
      get_contract_by_name chain registry name false
        = .error (.noSuchContractRecords name)) ∧
    (2 ≤ (registrySearchByName registry name).length →
      get_contract_by_name chain registry name false
        = .error (.multipleRecords name)) := by
  refine ⟨fun r h => ?_, fun h => ?_, fun h => ?_⟩
  · simp [get_contract_by_name, h]
  · simp [get_contract_by_name, h]
  · match hs : registrySearchByName registry name with
    | [] => rw [hs] at h; simp at h
    | [x] => rw [hs] at h; simp at h
    | a :: b :: t => simp [get_contract_by_name, hs]

/-- Witness for `nonupgradeable_resolution_unique` at concrete registries:
one matching record resolves; zero and two matching records fail. -/
theorem nonupgradeable_resolution_unique_witness :
    get_contract_by_name (fun a => a) [⟨"X", 7, 70⟩] "X" false = .ok ⟨7, 70⟩ ∧
    get_contract_by_name (fun a => a) [⟨"Y", 7, 70⟩] "X" false
      = .error (.noSuchContractRecords "X") ∧
    get_contract_by_name (fun a => a) [⟨"X", 7, 70⟩, ⟨"X", 8, 80⟩] "X" false
      = .error (.multipleRecords "X") :=
  ⟨(nonupgradeable_resolution_unique (fun a => a) [⟨"X", 7, 70⟩] "X").1
      ⟨"X", 7, 70⟩ (by decide),
   (nonupgradeable_resolution_unique (fun a => a) [⟨"Y", 7, 70⟩] "X").2.1
      (by decide),
   (nonupgradeable_resolution_unique (fun a => a)
      [⟨"X", 7, 70⟩, ⟨"X", 8, 80⟩] "X").2.2 (by decide)⟩

/-- **C1** (counterexample).  On a registry holding one `Dispatcher` record
and no record named `X`, the candidate list is empty, yet upgradeable
resolution does not fail with the zero-candidates dispatcher error: the
source raises the not-found error for `X` before the dispatcher scan. -/
theorem upgradeable_zero_records_cex :
    matchingPairs (fun _ => 2) [⟨"Dispatcher", 1, 10⟩] "X" = [] ∧
    get_contract_by_name (fun _ => 2) [⟨"Dispatcher", 1, 10⟩] "X" true
      = .error (.noSuchContractRecords "X") ∧
    get_contract_by_name (fun _ => 2) [⟨"Dispatcher", 1, 10⟩] "X" true
      ≠ .error (.noDispatcherTarget "X") := by decide

/-- **C1** (amended).  Provided at least one registry record matches `name`
(with zero matching records resolution fails earlier, with the not-found
error), resolving with `upgradeable=true` scans all records named
`Dispatcher`, reads each dispatcher's live `target()` address, and collects
a candidate pair `(dispatcher_address, target_abi)` for each registry record
named `name` whose address equals that live target; exactly one candidate
returns the dispatcher address with the target's ABI, zero candidates fails
with the no-dispatcher-target error, and more than one candidate fails with
the ambiguous-dispatcher error. -/
theorem upgradeable_resolution_scan (chain : ChainTargets)
    (registry : Registry) (name : String)
    (hne : registrySearchByName registry name ≠ []) :
    (matchingPairs chain registry name = [] →
      get_contract_by_name chain registry name true
        = .error (.noDispatcherTarget name)) ∧
    (∀ d a, matchingPairs chain registry name = [(d, a)] →
      get_contract_by_name chain registry name true = .ok ⟨d, a⟩) ∧
    (2 ≤ (matchingPairs chain registry name).length →
      get_contract_by_name chain registry name true
        = .error (.ambiguousDispatcher name)) := by
  refine ⟨fun hp => ?_, fun d a hp => ?_, fun hp =>
    get_contract_by_name_upgradeable_of_two_le chain registry name hne hp⟩
  · rw [get_contract_by_name_upgradeable_eq chain registry name hne, hp]
  · rw [get_contract_by_name_upgradeable_eq chain registry name hne, hp]

/-- Witness for `upgradeable_resolution_scan` at concrete registries: a
single dispatcher targeting the one `X` record resolves to the dispatcher
address with the target ABI; a dispatcher targeting nothing known fails with
the no-dispatcher-target error; two dispatchers targeting `X` fail with the
ambiguous-dispatcher error. -/
theorem upgradeable_resolution_scan_witness :
    get_contract_by_name (fun _ => 2) [⟨"Dispatcher", 1, 10⟩, ⟨"X", 2, 20⟩] "X"
        true = .ok ⟨1, 20⟩ ∧
    get_contract_by_name (fun _ => 2) [⟨"Dispatcher", 1, 10⟩, ⟨"X", 3, 30⟩] "X"
        true = .error (.noDispatcherTarget "X") ∧
    get_contract_by_name (fun _ => 2)
        [⟨"Dispatcher", 1, 10⟩, ⟨"Dispatcher", 4, 11⟩, ⟨"X", 2, 20⟩] "X" true
      = .error (.ambiguousDispatcher "X") :=
  ⟨(upgradeable_resolution_scan (fun _ => 2)
      [⟨"Dispatcher", 1, 10⟩, ⟨"X", 2, 20⟩] "X" (by decide)).2.1 1 20 (by decide),
   (upgradeable_resolution_scan (fun _ => 2)
      [⟨"Dispatcher", 1, 10⟩, ⟨"X", 3, 30⟩] "X" (by decide)).1 (by decide),
   (upgradeable_resolution_scan (fun _ => 2)
      [⟨"Dispatcher", 1, 10⟩, ⟨"Dispatcher", 4, 11⟩, ⟨"X", 2, 20⟩] "X"
      (by decide)).2.2 (by decide)⟩

/-- **C4** (counterexample).  On a registry holding one `Dispatcher` record
and no record named `Token`, upgradeable resolution does not fail with the
zero-candidates dispatcher error claimed: the not-found check on records
named `Token` fires first. -/
theorem upgradeable_no_records_cex :
    registrySearchByName [⟨"Dispatcher", 5, 50⟩] "Token" = [] ∧
    get_contract_by_name (fun _ => 9) [⟨"Dispatcher", 5, 50⟩] "Token" true
      ≠ .error (.noDispatcherTarget "Token") := by decide

/-- **C4** (amended).  For every registry state in which zero registry
records match `name` (while dispatcher records may exist), resolving `name`
with `upgradeable=true` fails with the not-found error raised before the
dispatcher scan, so the zero-candidates dispatcher error is never
reached. -/
theorem upgradeable_no_records_notfound (chain : ChainTargets)
    (registry : Registry) (name : String)
    (h : registrySearchByName registry name = []) :
    get_contract_by_name chain registry name true
      = .error (.noSuchContractRecords name) := by
  simp [get_contract_by_name, h]

/-- Witness for `upgradeable_no_records_notfound`: a registry holding only a
dispatcher record fails to resolve `Token` with the not-found error. -/
theorem upgradeable_no_records_notfound_witness :
    get_contract_by_name (fun _ => 9) [⟨"Dispatcher", 5, 50⟩] "Token" true
      = .error (.noSuchContractRecords "Token") :=
  upgradeable_no_records_notfound (fun _ => 9) [⟨"Dispatcher", 5, 50⟩] "Token"
    (by decide)

/-- **C10** (confirmed).  With a single dispatcher record and two or more
duplicate registry records named `name` all sharing the address equal to
that dispatcher's live target, upgradeable resolution fails with the
ambiguous-dispatcher error: ambiguity counts candidate pairs, one per
matching record, not distinct dispatchers. -/
theorem duplicate_target_records_ambiguous (chain : ChainTargets)
    (registry : Registry) (name : String) (d : RegRecord)
    (hd : registrySearchByName registry "Dispatcher" = [d])
    (hlen : 2 ≤ (registrySearchByName registry name).length)
    (hall : ∀ r ∈ registrySearchByName registry name, r.addr = chain d.addr) :
    get_contract_by_name chain registry name true
      = .error (.ambiguousDispatcher name) := by
  have hne : registrySearchByName registry name ≠ [] := by
    intro h
    rw [h] at hlen
    simp at hlen
  have hpairs : matchingPairs chain registry name
      = (registrySearchByName registry name).map (fun t => (d.addr, t.abi)) := by
    unfold matchingPairs
    rw [hd]
    have hf : (registrySearchByName registry name).filter
        (fun t => t.addr = chain d.addr) = registrySearchByName registry name :=
      List.filter_eq_self.mpr (fun a ha => by simpa using hall a ha)
    simp [hf]
  refine get_contract_by_name_upgradeable_of_two_le chain registry name hne ?_
  rw [hpairs, List.length_map]
  exact hlen

/-- Witness for `duplicate_target_records_ambiguous`: one dispatcher at
address 3 targeting address 6, and two duplicate `Esc` records both at
address 6, resolve to the ambiguous-dispatcher error. -/
theorem duplicate_target_records_ambiguous_witness :
    get_contract_by_name (fun _ => 6)
        [⟨"Dispatcher", 3, 33⟩, ⟨"Esc", 6, 61⟩, ⟨"Esc", 6, 62⟩] "Esc" true
      = .error (.ambiguousDispatcher "Esc") :=
  duplicate_target_records_ambiguous (fun _ => 6)
    [⟨"Dispatcher", 3, 33⟩, ⟨"Esc", 6, 61⟩, ⟨"Esc", 6, 62⟩] "Esc"
    ⟨"Dispatcher", 3, 33⟩ (by decide) (by decide) (by decide)

/-- **C3** (confirmed).  For every deployment attempt, registry enrollment
happens only after a transaction receipt has been obtained for the
constructor transaction; if any earlier step fails (unset deployer identity,
missing factory, submission failure, or receipt wait timing out), the
registry is returned unchanged, gaining no new record. -/
theorem deploy_enrolls_only_after_receipt (deployer : DeployerAddressField)
    (cache : RawContractCache) (registry : Registry) (net : DeployNetwork)
    (contract_name : String) :
    (∀ e, (deploy_contract deployer cache registry net contract_name).2
        = .error e →
      (deploy_contract deployer cache registry net contract_name).1
        = registry) ∧
    (∀ b txhash,
      (deploy_contract deployer cache registry net contract_name).2
        = .ok (b, txhash) →
      net.transact = some txhash ∧
      net.receipt txhash = some b.address ∧
      (deploy_contract deployer cache registry net contract_name).1
        = registryEnroll registry contract_name b.address b.abi) := by
  cases deployer with
  | none => simp [deploy_contract]
  | some a =>
    cases hf : get_contract_factory cache contract_name with
    | error e => simp [deploy_contract, hf]
    | ok f =>
      cases ht : net.transact with
      | none => simp [deploy_contract, hf, ht]
      | some tx =>
        cases hr : net.receipt tx with
        | none => simp [deploy_contract, hf, ht, hr]
        | some addr =>
          refine ⟨fun e he => ?_, fun b txhash hok => ?_⟩
          · simp [deploy_contract, hf, ht, hr] at he
          · simp only [deploy_contract, hf, ht, hr] at hok ⊢
            rw [Except.ok.injEq, Prod.mk.injEq] at hok
            obtain ⟨hb, htx⟩ := hok
            subst hb htx
            exact ⟨rfl, hr, rfl⟩

/-- Witness for `deploy_enrolls_only_after_receipt`: with no deployer
configured the registry is unchanged, and a fully successful deployment
enrolls exactly the receipt's address with the factory's ABI. -/
theorem deploy_enrolls_only_after_receipt_witness :
    (deploy_contract none none [] ⟨none, fun _ => none⟩ "C").1 = [] ∧
    (deploy_contract (some 1) (some [("C", ⟨5, 6⟩)]) []
        ⟨some 3, fun _ => some 8⟩ "C").1 = registryEnroll [] "C" 8 5 :=
  ⟨(deploy_enrolls_only_after_receipt none none [] ⟨none, fun _ => none⟩
      "C").1 InterfaceErr.noDeployerConfigured (by decide),
   ((deploy_enrolls_only_after_receipt (some 1) (some [("C", ⟨5, 6⟩)]) []
      ⟨some 3, fun _ => some 8⟩ "C").2 ⟨8, 5⟩ 3 (by decide)).2.2⟩

/-- **C5** (code bug).  A provider instance passed directly to
`add_provider` (with no URI) is silently discarded: neither branch of the
method body runs its append, because the append statement sits inside the
`if provider_uri and not provider:` branch.  The provider list is returned
unchanged and no error is raised, contradicting the documented append
contract. -/
theorem add_provider_instance_not_appended (st : ProvidersField)
    (p : Provider) (timeout : Option Nat) :
    add_provider st (some p) none timeout = (st, none) := by
  simp [add_provider]

/-- **C6** (confirmed).  Looking up a name absent from a populated factory
cache fails with the unknown-contract error, while a lookup on an instance
where no compilation was ever performed fails with the cache-empty error;
the two failure causes are distinct values, hence distinguishable by the
caller for every name. -/
theorem contract_factory_failure_modes
    (c : List (String × ContractArtifact)) (contract_name : String) :
    (c.lookup contract_name = none →
      get_contract_factory (some c) contract_name
        = .error (.unknownContract contract_name)) ∧
    get_contract_factory none contract_name = .error .cacheEmpty ∧
    InterfaceErr.unknownContract contract_name ≠ InterfaceErr.cacheEmpty := by
  refine ⟨fun h => ?_, rfl, by simp⟩
  simp [get_contract_factory, h]

/-- Witness for `contract_factory_failure_modes`: a cache holding only `A`
fails to produce a factory for `B` with the unknown-contract error. -/
theorem contract_factory_failure_modes_witness :
    get_contract_factory (some [("A", ⟨1, 2⟩)]) "B"
      = .error (.unknownContract "B") :=
  (contract_factory_failure_modes [("A", ⟨1, 2⟩)] "B").1 (by decide)

/-- **C7** (confirmed).  On an instance whose deployer identity is already
set, a second set attempt fails with the deployer-already-set error and the
first-set value remains unchanged: the field is write-once. -/
theorem deployer_address_write_once (a0 checksum_address : Address) :
    setDeployerAddress (some a0) checksum_address
      = (some a0, some .deployerAlreadySet) := rfl

/-- **C8** (confirmed).  `call_backend_verify` returns true if and only if
the signature validates against the hash and the public key recovered from
the signature over that hash equals the supplied public key; in particular,
whenever the recovered key differs from the supplied key — e.g. a valid
signature produced by a different signer — it returns false. -/
theorem backend_verify_iff (backend : SignatureBackend)
    (pubkey : PublicKeyValue) (signature : SignatureValue)
    (msg_hash : MsgHash) :
    (call_backend_verify backend pubkey signature msg_hash = true ↔
      backend.verify_msg_hash signature msg_hash pubkey = true ∧
      backend.recover_public_key_from_msg_hash signature msg_hash = pubkey) ∧
    (backend.recover_public_key_from_msg_hash signature msg_hash ≠ pubkey →
      call_backend_verify backend pubkey signature msg_hash = false) := by
  constructor
  · simp [call_backend_verify]
  · intro h
    simp [call_backend_verify, h]

/-- Witness for `backend_verify_iff`: a backend whose recovery always
returns key 5 verifies true for supplied key 5 and false for supplied
key 7, even though the raw signature check passes for both. -/
theorem backend_verify_iff_witness :
    call_backend_verify ⟨fun _ _ _ => true, fun _ _ => 5⟩ 5 11 13 = true ∧
    call_backend_verify ⟨fun _ _ _ => true, fun _ _ => 5⟩ 7 11 13 = false :=
  ⟨(backend_verify_iff ⟨fun _ _ _ => true, fun _ _ => 5⟩ 5 11 13).1.mpr
      ⟨rfl, rfl⟩,
   (backend_verify_iff ⟨fun _ _ _ => true, fun _ _ => 5⟩ 7 11 13).2
      (by decide)⟩

/-- **C9** (confirmed).  For every endpoint descriptor whose URI scheme is
not one of `tester`, `ipc`, `ws`, `http`, `https`, `add_provider` fails with
the unsupported-protocol error and the provider list is unchanged: no
provider is produced or added. -/
theorem add_provider_unsupported_scheme (st : ProvidersField)
    (uri_breakdown : UriBreakdown) (timeout : Option Nat)
    (h : uri_breakdown.scheme ∉
      (["tester", "ipc", "ws", "http", "https"] : List String)) :
    add_provider st none (some uri_breakdown) timeout
      = (st, some (.unsupportedProviderProtocol uri_breakdown.scheme)) := by
  simp only [List.mem_cons, List.not_mem_nil, or_false, not_or] at h
  obtain ⟨h1, h2, h3, h4, h5⟩ := h
  simp [add_provider, h1, h2, h3, h4, h5]

/-- Witness for `add_provider_unsupported_scheme`: scheme `ftp` is refused
and the (empty but created) provider list is untouched. -/
theorem add_provider_unsupported_scheme_witness :
    add_provider (some []) none (some ⟨"ftp", "host", "/p"⟩) none
      = (some [], some (.unsupportedProviderProtocol "ftp")) :=
  add_provider_unsupported_scheme (some []) ⟨"ftp", "host", "/p"⟩ none
    (by decide)

end NucypherInterfaces
